import Mathlib

/-!
Shallow embedding of `src/KMZtoJSON.py` (a FastAPI service that turns a KMZ
archive of point placemarks into enriched JSON records) and proofs about it.

Modelling conventions:
* Python floats become rationals (`ℚ`); the arithmetic the claims are about
  (`int((lon + 180) // 6) + 1`, comparisons with `0`) is exact on the inputs
  considered, so `ℚ` is faithful there.
* The pyproj `Transformer` is an external collaborator; it is passed to
  `lonlat_to_utm` as a function `T : ℤ → ℚ → ℚ → ℚ × ℚ` mapping
  (epsg, lon, lat) to (easting, northing).
* A shapely polygon is modelled extensionally by its `within`-containment
  predicate `ℚ × ℚ → Bool`; a GeoDataFrame layer is a list of
  (polygon, attribute) pairs in its row order.
* `gpd.sjoin(..., predicate="within", how="left")` keeps every left row,
  emitting one output row per matching right row, and a single row with a
  missing (NaN) attribute when no right row matches; this is its documented
  semantics and is embedded by `sjoinWithin`.
* Pandas cell values in the final `to_dict(orient="records")` output are
  embedded by `Val` (a string, a number, or NaN for a missing value).
* `unicodedata.normalize("NFKD", ·)` is an external library call; `nfkdChar`
  embeds its decomposition table for the Latin-1 letters that occur in the
  Chilean administrative attributes, every other character decomposing to
  itself.
-/

attribute [local semireducible] Rat.add Rat.mul Rat.inv Rat.sub Rat.ofScientific

namespace KMZtoJSON

/-- A point placemark extracted from a KML document: `gdf["Name"]`,
`gdf.geometry.x` (longitude) and `gdf.geometry.y` (latitude). -/
structure Placemark where
  name : String
  lon : ℚ
  lat : ℚ
deriving DecidableEq, Repr

/-- A polygon geometry, modelled by its point-containment predicate
(the shapely `point.within(polygon)` test). -/
abbrev Geo : Type := ℚ × ℚ → Bool

/-- A boundary layer: list of (polygon, attribute) pairs in row order,
as in `gdf_region`, `gdf_provincia`, `gdf_comuna`, `gdf_localidad`. -/
abbrev Layer : Type := List (Geo × String)

/-- The four layers loaded at startup (lines 49–52). -/
structure Layers where
  region : Layer
  provincia : Layer
  comuna : Layer
  localidad : Layer

/-! ## Text normalisation (`quitar_tildes`, lines 43–46) -/

/-- NFKD decomposition of one character, embedding `unicodedata.normalize`
for the accented Latin letters in play; any other character is its own
decomposition. -/
def nfkdChar (c : Char) : List Char :=
  if c = 'á' then ['a', '\u0301'] else
  if c = 'é' then ['e', '\u0301'] else
  if c = 'í' then ['i', '\u0301'] else
  if c = 'ó' then ['o', '\u0301'] else
  if c = 'ú' then ['u', '\u0301'] else
  if c = 'Á' then ['A', '\u0301'] else
  if c = 'É' then ['E', '\u0301'] else
  if c = 'Í' then ['I', '\u0301'] else
  if c = 'Ó' then ['O', '\u0301'] else
  if c = 'Ú' then ['U', '\u0301'] else
  if c = 'ñ' then ['n', '\u0303'] else
  if c = 'Ñ' then ['N', '\u0303'] else
  if c = 'ü' then ['u', '\u0308'] else
  if c = 'Ü' then ['U', '\u0308'] else
  [c]

/-- NFKD normalisation of a string, as a character list:
`unicodedata.normalize("NFKD", txt)`. -/
def nfkdStr (s : String) : List Char := s.data.flatMap nfkdChar

/-- `.encode("ASCII", "ignore")` drops every non-ASCII character; decoding
back gives the ASCII characters in order. -/
def asciiIgnore (l : List Char) : List Char := l.filter (fun c => c.toNat < 128)

/-- `quitar_tildes` (lines 43–46): NFKD-normalise, keep only ASCII. -/
def quitar_tildes (s : String) : String := String.mk (asciiIgnore (nfkdStr s))

/-- A combining diacritical mark (Unicode block U+0300–U+036F). -/
def isCombining (c : Char) : Bool := decide (0x300 ≤ c.toNat ∧ c.toNat ≤ 0x36F)

/-- Layer loading applies `quitar_tildes` to every attribute value
(lines 54–60). -/
def load_layer (raw : Layer) : Layer :=
  raw.map (fun p => (p.1, quitar_tildes p.2))

/-! ## Coordinate projector (`lonlat_to_utm`, lines 63–68) -/

/-- Line 64: `zone = int((lon + 180) // 6) + 1`.  Python float floor-division
is `Int.floor` of the quotient, already integral, so `int` is exact. -/
def utm_zone (lon : ℚ) : ℤ := Int.floor ((lon + 180) / 6) + 1

/-- Line 65: `south = lat < 0`. -/
def utm_south (lat : ℚ) : Bool := decide (lat < 0)

/-- Line 66: `epsg = 32700 + zone if south else 32600 + zone`. -/
def utm_epsg (lon lat : ℚ) : ℤ :=
  if utm_south lat then 32700 + utm_zone lon else 32600 + utm_zone lon

/-- Line 68 label: `f"{zone}{'S' if south else 'N'}"`. -/
def zone_label (lon lat : ℚ) : String :=
  toString (utm_zone lon) ++ (if utm_south lat then "S" else "N")

/-- `lonlat_to_utm` (lines 63–68); `T` is the pyproj transform collaborator
keyed by the EPSG code. -/
def lonlat_to_utm (T : ℤ → ℚ → ℚ → ℚ × ℚ) (lon lat : ℚ) : ℚ × ℚ × String :=
  let en := T (utm_epsg lon lat) lon lat
  (en.1, en.2, zone_label lon lat)

/-! ## Spatial join (`add_admin_columns`, lines 70–94) -/

/-- A pandas cell in the final records: a string, a number, or a missing
value (the NaN an unmatched left join leaves behind). -/
inductive Val where
  | str (s : String)
  | num (q : ℚ)
  | nan
deriving DecidableEq, Repr

/-- One output record of `to_dict(orient="records")`: field names paired
with cell values, in column order. -/
abbrev Record : Type := List (String × Val)

/-- The polygons of a layer that contain a point (`predicate="within"`),
in layer row order. -/
def matchesOf (layer : Layer) (pt : ℚ × ℚ) : List (Geo × String) :=
  layer.filter (fun g => g.1 pt)

/-- `gpd.sjoin(left, layer, predicate="within", how="left")`: every left row
is kept; a row with one or more containing polygons is emitted once per
match, a row with none is emitted once with a missing attribute. -/
def sjoinWithin (getPt : α → ℚ × ℚ) (layer : Layer) (rows : List α) :
    List (α × Option String) :=
  rows.flatMap (fun r =>
    match matchesOf layer (getPt r) with
    | [] => [(r, none)]
    | ms => ms.map (fun g => (r, some g.2)))

/-- A row of the per-document dataframe after the UTM columns are added
(lines 117–130): Name, lon, lat, responsable, xx, yy, UTM_zone. -/
structure BaseRow where
  name : String
  lon : ℚ
  lat : ℚ
  responsable : String
  xx : ℚ
  yy : ℚ
  utmZone : String
deriving DecidableEq, Repr

/-- Lines 117–130: the base dataframe row of one placemark (with
`responsable` initialised to `""`), extended with the `xx`, `yy`,
`UTM_zone` columns via `lonlat_to_utm`. -/
def baseRow (T : ℤ → ℚ → ℚ → ℚ × ℚ) (p : Placemark) : BaseRow :=
  let u := lonlat_to_utm T p.lon p.lat
  { name := p.name, lon := p.lon, lat := p.lat,
    responsable := "", xx := u.1, yy := u.2.1, utmZone := u.2.2 }

/-- A row after the four spatial joins of `add_admin_columns`. -/
structure AdminRow where
  base : BaseRow
  region : Option String
  provincia : Option String
  comuna : Option String
  localidad : Option String
deriving DecidableEq, Repr

/-- `add_admin_columns` (lines 70–94): four successive left spatial joins
against the region, provincia, comuna and localidad layers. -/
def add_admin_columns (ly : Layers) (rows : List BaseRow) : List AdminRow :=
  (sjoinWithin (fun r => (r.1.1.1.lon, r.1.1.1.lat)) ly.localidad
    (sjoinWithin (fun r => (r.1.1.lon, r.1.1.lat)) ly.comuna
      (sjoinWithin (fun r => (r.1.lon, r.1.lat)) ly.provincia
        (sjoinWithin (fun r => (r.lon, r.lat)) ly.region rows)))).map
    (fun r => ⟨r.1.1.1.1, r.1.1.1.2, r.1.1.2, r.1.2, r.2⟩)

/-- A missing attribute serialises as NaN, a present one as its string. -/
def optVal : Option String → Val
  | none => Val.nan
  | some s => Val.str s

/-- Lines 134–141: `fillna("Sin localidad")` on the `localidad` column only,
then column selection in the listed order and `to_dict(orient="records")`. -/
def toRecord (r : AdminRow) : Record :=
  [("Name", Val.str r.base.name),
   ("lon", Val.num r.base.lon),
   ("lat", Val.num r.base.lat),
   ("xx", Val.num r.base.xx),
   ("yy", Val.num r.base.yy),
   ("UTM_zone", Val.str r.base.utmZone),
   ("region", optVal r.region),
   ("provincia", optVal r.provincia),
   ("comuna", optVal r.comuna),
   ("localidad", Val.str (r.localidad.getD "Sin localidad")),
   ("responsable", Val.str r.base.responsable)]

/-- Lines 115–141: the records of one parsed KML document. -/
def processDoc (T : ℤ → ℚ → ℚ → ℚ × ℚ) (ly : Layers) (doc : List Placemark) :
    List Record :=
  (add_admin_columns ly (doc.map (baseRow T))).map toRecord

/-! ## Archive processing (`process_kmz_bytes`, lines 97–142) -/

instance {ε α : Type} [DecidableEq ε] [DecidableEq α] : DecidableEq (Except ε α) := fun a b =>
  match a, b with
  | .error x, .error y =>
      if h : x = y then isTrue (by rw [h]) else isFalse (by intro he; cases he; exact h rfl)
  | .error _, .ok _ => isFalse (by intro h; cases h)
  | .ok _, .error _ => isFalse (by intro h; cases h)
  | .ok x, .ok y =>
      if h : x = y then isTrue (by rw [h]) else isFalse (by intro he; cases he; exact h rfl)

/-- An entry of the extracted archive: file name plus, for KML entries, the
outcome of `gpd.read_file` — the placemark list or a parse error message. -/
structure KmlEntry where
  name : String
  content : Except String (List Placemark)
deriving DecidableEq, Repr

/-- The errors `process_kmz_bytes` can raise: extraction failure, the
`ValueError("KMZ sin KML interno.")` of line 111, or a `read_file`
failure. -/
inductive KmzError where
  | extract (msg : String)
  | noKml
  | docParse (msg : String)
deriving DecidableEq, Repr

/-- Lines 107–109: the entries whose lower-cased file name ends in `.kml`,
in `os.walk` discovery order. -/
def kml_files (entries : List KmlEntry) : List KmlEntry :=
  entries.filter (fun (e : KmlEntry) => List.isSuffixOf ".kml".data (e.name.data.map Char.toLower))

/-- The `for kml in kml_files` loop of lines 114–115: `gpd.read_file` each
document in order; the first failure raises and aborts the loop. -/
def parseDocs : List KmlEntry → Except KmzError (List (List Placemark))
  | [] => Except.ok []
  | e :: es =>
    match e.content with
    | Except.error m => Except.error (KmzError.docParse m)
    | Except.ok doc =>
      match parseDocs es with
      | Except.error err => Except.error err
      | Except.ok docs => Except.ok (doc :: docs)

/-- `process_kmz_bytes` (lines 97–142) after extraction: locate the KML
entries, fail if there are none, parse each document and concatenate the
per-document records; any parse failure aborts the whole computation. -/
def process_kmz_bytes (T : ℤ → ℚ → ℚ → ℚ × ℚ) (ly : Layers)
    (entries : List KmlEntry) : Except KmzError (List Record) :=
  if (kml_files entries).isEmpty then Except.error KmzError.noKml
  else
    (parseDocs (kml_files entries)).map
      (fun docs => (docs.map (processDoc T ly)).flatten)

/-- The whole request body (lines 98–142): `zipfile.ZipFile(...).extractall`
is the external extraction step, whose outcome — the entry list, or a
failure message — is the input here. -/
def process_request (T : ℤ → ℚ → ℚ → ℚ × ℚ) (ly : Layers)
    (extracted : Except String (List KmlEntry)) : Except KmzError (List Record) :=
  (extracted.mapError KmzError.extract).bind (process_kmz_bytes T ly)

/-- The parsed placemark list of an entry, when its parse succeeded. -/
def parsedOf (e : KmlEntry) : Option (List Placemark) :=
  match e.content with
  | Except.ok doc => some doc
  | Except.error _ => none

/-- All placemarks of the archive, in document-discovery order and then
point order within the document. -/
def all_points (entries : List KmlEntry) : List Placemark :=
  ((kml_files entries).filterMap parsedOf).flatten

/-- Look a field up in a record (first occurrence wins). -/
def fieldVal (r : Record) (k : String) : Option Val :=
  (r.find? (fun kv => kv.1 == k)).map (fun kv => kv.2)

/-- The attribute of the first containing polygon in layer row order, if any. -/
def first_match (layer : Layer) (pt : ℚ × ℚ) : Option String :=
  (matchesOf layer pt).head?.map (fun g => g.2)

/-- Enrichment of one row when no layer contains its point more than once:
each layer contributes its unique (hence first) match. -/
def enrichUnique (ly : Layers) (r : BaseRow) : AdminRow :=
  ⟨r, first_match ly.region (r.lon, r.lat), first_match ly.provincia (r.lon, r.lat),
   first_match ly.comuna (r.lon, r.lat), first_match ly.localidad (r.lon, r.lat)⟩

/-- The single record a placemark yields when no layer multi-matches. -/
def mkRecordUnique (T : ℤ → ℚ → ℚ → ℚ × ℚ) (ly : Layers) (p : Placemark) : Record :=
  toRecord (enrichUnique ly (baseRow T p))

/-- The record list of a processing outcome, when it succeeded. -/
def records? (x : Except KmzError (List Record)) : Option (List Record) :=
  match x with
  | Except.ok rs => some rs
  | Except.error _ => none

/-- No layer contains the point more than once (the situation in which the
spec expects a one-to-one output). -/
def uniquePoint (ly : Layers) (pt : ℚ × ℚ) : Prop :=
  (matchesOf ly.region pt).length ≤ 1 ∧ (matchesOf ly.provincia pt).length ≤ 1 ∧
  (matchesOf ly.comuna pt).length ≤ 1 ∧ (matchesOf ly.localidad pt).length ≤ 1

instance (ly : Layers) (pt : ℚ × ℚ) : Decidable (uniquePoint ly pt) := by
  unfold uniquePoint; infer_instance

/-! ## Concrete fixtures for witnesses and counterexamples -/

/-- A degenerate stand-in for the pyproj transform in concrete scenarios. -/
def Tid : ℤ → ℚ → ℚ → ℚ × ℚ := fun _ lon lat => (lon, lat)

/-- An axis-aligned square polygon, given by its containment test. -/
def sq (a b c d : ℚ) : Geo := fun p => decide (a ≤ p.1 ∧ p.1 ≤ b ∧ c ≤ p.2 ∧ p.2 ≤ d)

/-- Four one-polygon layers over the unit square. -/
def ly1 : Layers :=
  ⟨[(sq 0 1 0 1, "R1")], [(sq 0 1 0 1, "P1")], [(sq 0 1 0 1, "C1")], [(sq 0 1 0 1, "L1")]⟩

/-- A one-document archive with a single placemark inside the unit square. -/
def ent1 : List KmlEntry := [⟨"doc1.kml", Except.ok [⟨"A", 1/2, 1/2⟩]⟩]

/-- The record the pipeline produces for `ent1` over `ly1` under `Tid`. -/
def rec1 : Record :=
  [("Name", Val.str "A"), ("lon", Val.num (1/2)), ("lat", Val.num (1/2)),
   ("xx", Val.num (1/2)), ("yy", Val.num (1/2)), ("UTM_zone", Val.str "31N"),
   ("region", Val.str "R1"), ("provincia", Val.str "P1"), ("comuna", Val.str "C1"),
   ("localidad", Val.str "L1"), ("responsable", Val.str "")]

/-- A layer of two overlapping polygons. -/
def layerDup : Layer := [(sq 0 1 0 1, "CA"), (sq 0 2 0 2, "CB")]

/-- Layers whose comuna layer has two overlapping polygons. -/
def lyDup : Layers := ⟨[], [], layerDup, []⟩

/-- A one-placemark archive whose point lies in both `lyDup` comunas. -/
def entDup : List KmlEntry := [⟨"dup.kml", Except.ok [⟨"C", 1/2, 1/2⟩]⟩]

/-- Layers whose region layer has two overlapping polygons. -/
def lyDupR : Layers := ⟨[(sq 0 1 0 1, "RA"), (sq 0 2 0 2, "RB")], [], [], []⟩

/-- A one-placemark archive whose point lies in both `lyDupR` regions. -/
def entSolo : List KmlEntry := [⟨"solo.kml", Except.ok [⟨"D", 1/2, 1/2⟩]⟩]

/-- A one-placemark archive whose point lies far outside every polygon. -/
def entFar : List KmlEntry := [⟨"far.kml", Except.ok [⟨"B", 10, 10⟩]⟩]

/-- An archive whose only KML document fails to parse. -/
def entBad : List KmlEntry := [⟨"bad.kml", Except.error "not a KML"⟩]

/-- An archive without any KML entry. -/
def entTxt : List KmlEntry := [⟨"readme.txt", Except.ok []⟩]

/-! ## Claim theorems -/

/-- C5: for every longitude L in [-180, 180), the zone computed on line 64
equals floor((L+180)/6)+1 and lies in [1, 60]; moreover zone(-180) = 1 and
zone(179.9999) = 60. -/
theorem C5_utm_zone (L : ℚ) (h1 : -180 ≤ L) (h2 : L < 180) :
    utm_zone L = Int.floor ((L + 180) / 6) + 1 ∧
    1 ≤ utm_zone L ∧ utm_zone L ≤ 60 ∧
    utm_zone (-180) = 1 ∧ utm_zone (1799999 / 10000) = 60 := by
  refine ⟨rfl, ?_, ?_, by decide, by decide⟩
  · have h0 : (0 : ℚ) ≤ (L + 180) / 6 := by
      apply div_nonneg _ (by norm_num)
      linarith
    have hf : (0 : ℤ) ≤ Int.floor ((L + 180) / 6) := Int.floor_nonneg.mpr h0
    unfold utm_zone
    omega
  · have h60 : (L + 180) / 6 < (60 : ℚ) := by
      rw [div_lt_iff₀ (by norm_num : (0:ℚ) < 6)]
      linarith
    have hf : Int.floor ((L + 180) / 6) < (60 : ℤ) := by
      apply Int.floor_lt.mpr
      push_cast
      exact h60
    unfold utm_zone
    omega

/-- Witness for C5, at L = -70.65. -/
theorem C5_utm_zone_witness :
    utm_zone (-70.65) = Int.floor (((-70.65 : ℚ) + 180) / 6) + 1 ∧
    1 ≤ utm_zone (-70.65) ∧ utm_zone (-70.65) ≤ 60 ∧
    utm_zone (-180) = 1 ∧ utm_zone (1799999 / 10000) = 60 :=
  C5_utm_zone (-70.65) (by decide) (by decide)

/-- C6: the hemisphere flag of line 65 is set exactly when lat < 0 (lat = 0
counts as north), the EPSG code of line 66 is 32600+zone in the north and
32700+zone in the south, the label returned on line 68 is the zone number
followed by the hemisphere letter, and at (-70.65, -33.45) it is "19S". -/
theorem C6_hemisphere_epsg_label (T : ℤ → ℚ → ℚ → ℚ × ℚ) (lon lat : ℚ) :
    (utm_south lat = true ↔ lat < 0) ∧
    utm_south 0 = false ∧
    utm_epsg lon lat =
      (if utm_south lat then 32700 + utm_zone lon else 32600 + utm_zone lon) ∧
    (lonlat_to_utm T lon lat).2.2 =
      toString (utm_zone lon) ++ (if utm_south lat then "S" else "N") ∧
    (lonlat_to_utm T (-70.65) (-33.45)).2.2 = "19S" := by
  refine ⟨?_, by decide, rfl, rfl, ?_⟩
  · simp [utm_south]
  · show zone_label (-70.65) (-33.45) = "19S"
    decide

/-- C10: at lon = 180 (admitted by the data model) the projector computes
zone 61, outside [1, 60]; the EPSG code becomes 32661 (north) or 32761
(south), and the label "61N" or "61S". -/
theorem C10_zone61 (lat : ℚ) :
    utm_zone 180 = 61 ∧
    utm_epsg 180 lat = (if utm_south lat then 32761 else 32661) ∧
    zone_label 180 lat = (if utm_south lat then "61S" else "61N") := by
  have hz : utm_zone 180 = 61 := by decide
  refine ⟨hz, ?_, ?_⟩
  · unfold utm_epsg
    rw [hz]
    cases utm_south lat <;> simp
  · unfold zone_label
    rw [hz]
    cases utm_south lat <;> simp <;> decide

/-- C7: layer loading stores `quitar_tildes` of every raw attribute; on a
string whose NFKD decomposition consists of ASCII characters and combining
diacritical marks, this is the decomposition with the combining marks
stripped; the result is always ASCII-only; and "Ñuñoa" maps to "Nunoa",
"Bío-Bío" to "Bio-Bio". -/
theorem C7_normalisation (raw : Layer) (s : String)
    (h : ∀ c ∈ nfkdStr s, c.toNat < 128 ∨ isCombining c = true) :
    load_layer raw = raw.map (fun p => (p.1, quitar_tildes p.2)) ∧
    quitar_tildes s = String.mk ((nfkdStr s).filter (fun c => !isCombining c)) ∧
    (∀ t : String, ∀ c ∈ (quitar_tildes t).data, c.toNat < 128) ∧
    quitar_tildes "Ñuñoa" = "Nunoa" ∧ quitar_tildes "Bío-Bío" = "Bio-Bio" := by
  refine ⟨rfl, ?_, ?_, by decide, by decide⟩
  · unfold quitar_tildes asciiIgnore
    congr 1
    apply List.filter_congr
    intro c hc
    rcases h c hc with hA | hB
    · have hcomb : isCombining c = false := by
        unfold isCombining
        simp only [decide_eq_false_iff_not]
        omega
      simp [hA, hcomb]
    · have h1 : ¬ (c.toNat < 128) := by
        unfold isCombining at hB
        simp only [decide_eq_true_eq] at hB
        omega
      simp [hB, h1]
  · intro t c hc
    unfold quitar_tildes asciiIgnore at hc
    simp only [String.data] at hc
    have := List.of_mem_filter hc
    simpa using this

/-- Witness for C7, at the raw comuna attribute "Ñuñoa". -/
theorem C7_normalisation_witness :
    load_layer [(sq 0 1 0 1, "Ñuñoa")] =
      [(sq 0 1 0 1, "Ñuñoa")].map (fun p => (p.1, quitar_tildes p.2)) ∧
    quitar_tildes "Ñuñoa" =
      String.mk ((nfkdStr "Ñuñoa").filter (fun c => !isCombining c)) ∧
    (∀ t : String, ∀ c ∈ (quitar_tildes t).data, c.toNat < 128) ∧
    quitar_tildes "Ñuñoa" = "Nunoa" ∧ quitar_tildes "Bío-Bío" = "Bio-Bio" :=
  C7_normalisation [(sq 0 1 0 1, "Ñuñoa")] "Ñuñoa" (by decide)

/-- C8: an archive none of whose extracted files is recognised —
case-insensitively, by extension — as a KML document makes
`process_kmz_bytes` raise the `ValueError` of line 111; no records. -/
theorem C8_no_kml (T : ℤ → ℚ → ℚ → ℚ × ℚ) (ly : Layers) (entries : List KmlEntry)
    (h : ∀ e ∈ entries,
      List.isSuffixOf ".kml".data (e.name.data.map Char.toLower) = false) :
    process_kmz_bytes T ly entries = Except.error KmzError.noKml := by
  have hk : kml_files entries = [] := by
    unfold kml_files
    apply List.filter_eq_nil_iff.mpr
    intro e he
    simp [h e he]
  simp [process_kmz_bytes, hk]

/-- Witness for C8, at an archive holding only "readme.txt". -/
theorem C8_no_kml_witness :
    process_kmz_bytes Tid ly1 entTxt = Except.error KmzError.noKml :=
  C8_no_kml Tid ly1 entTxt (by decide)

/-- Helper: if some KML entry failed to parse, the document traversal of
lines 114–141 yields a parse error. -/
theorem parseDocs_error (ks : List KmlEntry)
    (h : ∃ e ∈ ks, parsedOf e = none) :
    ∃ msg, parseDocs ks = Except.error (KmzError.docParse msg) := by
  induction ks with
  | nil => simp at h
  | cons e es ih =>
    rcases h with ⟨x, hx, hpx⟩
    rcases List.mem_cons.mp hx with rfl | hmem
    · cases hc : x.content with
      | error m => exact ⟨m, by simp [parseDocs, hc]⟩
      | ok doc => simp [parsedOf, hc] at hpx
    · cases hc : e.content with
      | error m => exact ⟨m, by simp [parseDocs, hc]⟩
      | ok doc =>
        rcases ih ⟨x, hmem, hpx⟩ with ⟨m, hm⟩
        exact ⟨m, by simp [parseDocs, hc, hm]⟩

/-- Helper: when every KML entry parsed, the traversal returns every parsed
document, in order. -/
theorem parseDocs_ok (ks : List KmlEntry)
    (h : ∀ e ∈ ks, (parsedOf e).isSome = true) :
    parseDocs ks = Except.ok (ks.filterMap parsedOf) := by
  induction ks with
  | nil => rfl
  | cons e es ih =>
    have he := h e (List.mem_cons_self e es)
    cases hc : e.content with
    | error m => simp [parsedOf, hc] at he
    | ok doc =>
      have ht := ih (fun x hx => h x (List.mem_cons_of_mem _ hx))
      simp [parseDocs, hc, ht, parsedOf, List.filterMap_cons]

/-- C9: an extraction failure, or a parse failure of any embedded document,
aborts the whole request with a single error; no record list — partial or
otherwise — is returned. -/
theorem C9_abort_no_output (T : ℤ → ℚ → ℚ → ℚ × ℚ) (ly : Layers) :
    (∀ msg : String, process_request T ly (Except.error msg) =
        Except.error (KmzError.extract msg)) ∧
    (∀ entries : List KmlEntry, (∃ e ∈ kml_files entries, parsedOf e = none) →
        records? (process_kmz_bytes T ly entries) = none ∧
        ∃ msg, process_kmz_bytes T ly entries =
          Except.error (KmzError.docParse msg)) := by
  constructor
  · intro msg
    rfl
  · intro entries hex
    have hne : (kml_files entries).isEmpty = false := by
      rcases hex with ⟨e, he, _⟩
      cases hkf : kml_files entries with
      | nil => rw [hkf] at he; simp at he
      | cons a as => rfl
    rcases parseDocs_error (kml_files entries) hex with ⟨m, hm⟩
    have hp : process_kmz_bytes T ly entries =
        Except.error (KmzError.docParse m) := by
      simp [process_kmz_bytes, hne, hm, Except.map]
    exact ⟨by rw [hp]; rfl, m, hp⟩

/-- Witness for C9: a failing unzip, and an archive whose only KML document
fails to parse; each aborts with an error and returns no record list. -/
theorem C9_abort_no_output_witness :
    process_request Tid ly1 (Except.error "zip fail") =
      Except.error (KmzError.extract "zip fail") ∧
    records? (process_kmz_bytes Tid ly1 entBad) = none := by
  constructor
  · exact (C9_abort_no_output Tid ly1).1 "zip fail"
  · exact ((C9_abort_no_output Tid ly1).2 entBad (by decide)).1

/-- C4 (amended): when one or more polygons of a layer contain the point
of a row, the left spatial join emits one output row per containing polygon,
attribute values in layer row order — it does not select a single first
match. -/
theorem C4_one_row_per_match {α : Type} (getPt : α → ℚ × ℚ) (layer : Layer)
    (r : α) (h : (matchesOf layer (getPt r)).isEmpty = false) :
    sjoinWithin getPt layer [r] =
      (matchesOf layer (getPt r)).map (fun g => (r, some g.2)) := by
  unfold sjoinWithin
  cases hm : matchesOf layer (getPt r) with
  | nil => rw [hm] at h; simp at h
  | cons g gs => simp [hm]

/-- Witness for C4: a point inside both polygons of a two-polygon layer. -/
theorem C4_one_row_per_match_witness :
    sjoinWithin (fun (p : ℚ × ℚ) => p) layerDup [((1:ℚ)/2, (1:ℚ)/2)] =
      (matchesOf layerDup ((1:ℚ)/2, (1:ℚ)/2)).map
        (fun g => ((((1:ℚ)/2, (1:ℚ)/2)), some g.2)) :=
  C4_one_row_per_match (fun p => p) layerDup ((1:ℚ)/2, (1:ℚ)/2) (by decide)

/-- C4 counterexample: a placemark inside two comuna polygons yields two
records — one per match, with both comuna attributes — not a single
deterministic record. -/
theorem C4_cex :
    (process_kmz_bytes Tid lyDup entDup).map
        (fun rs => rs.map (fun r => fieldVal r "comuna")) =
      Except.ok [some (Val.str "CA"), some (Val.str "CB")] ∧
    (process_kmz_bytes Tid lyDup entDup).map List.length = Except.ok 2 ∧
    (all_points entDup).length = 1 := by decide

/-- Helper: a left spatial join on a single row with no match keeps the row
once, with a missing attribute. -/
theorem sjoinWithin_singleton_none {α : Type} (getPt : α → ℚ × ℚ)
    (layer : Layer) (x : α) (h : matchesOf layer (getPt x) = []) :
    sjoinWithin getPt layer [x] = [(x, none)] := by
  unfold sjoinWithin
  simp [h]

/-- C2 (amended): a point contained in no polygon of any layer still yields
one full record, but only the localidad field carries the sentinel
"Sin localidad" (line 134); the region, provincia and comuna fields are
left NaN by the unmatched left joins. -/
theorem C2_sentinel_only_localidad (ly : Layers) (r : BaseRow)
    (h1 : (matchesOf ly.region (r.lon, r.lat)).isEmpty = true)
    (h2 : (matchesOf ly.provincia (r.lon, r.lat)).isEmpty = true)
    (h3 : (matchesOf ly.comuna (r.lon, r.lat)).isEmpty = true)
    (h4 : (matchesOf ly.localidad (r.lon, r.lat)).isEmpty = true) :
    add_admin_columns ly [r] = [⟨r, none, none, none, none⟩] ∧
    toRecord ⟨r, none, none, none, none⟩ =
      [("Name", Val.str r.name), ("lon", Val.num r.lon), ("lat", Val.num r.lat),
       ("xx", Val.num r.xx), ("yy", Val.num r.yy), ("UTM_zone", Val.str r.utmZone),
       ("region", Val.nan), ("provincia", Val.nan), ("comuna", Val.nan),
       ("localidad", Val.str "Sin localidad"),
       ("responsable", Val.str r.responsable)] := by
  have h1e : matchesOf ly.region (r.lon, r.lat) = [] := List.isEmpty_iff.mp h1
  have h2e : matchesOf ly.provincia (r.lon, r.lat) = [] := List.isEmpty_iff.mp h2
  have h3e : matchesOf ly.comuna (r.lon, r.lat) = [] := List.isEmpty_iff.mp h3
  have h4e : matchesOf ly.localidad (r.lon, r.lat) = [] := List.isEmpty_iff.mp h4
  constructor
  · simp [add_admin_columns, sjoinWithin, h1e, h2e, h3e, h4e]
  · rfl

/-- Witness for C2, at a placemark at (10, 10), outside the unit-square
layers of `ly1`. -/
theorem C2_sentinel_only_localidad_witness :
    add_admin_columns ly1 [baseRow Tid ⟨"B", 10, 10⟩] =
      [⟨baseRow Tid ⟨"B", 10, 10⟩, none, none, none, none⟩] ∧
    toRecord ⟨baseRow Tid ⟨"B", 10, 10⟩, none, none, none, none⟩ =
      [("Name", Val.str (baseRow Tid ⟨"B", 10, 10⟩).name),
       ("lon", Val.num (baseRow Tid ⟨"B", 10, 10⟩).lon),
       ("lat", Val.num (baseRow Tid ⟨"B", 10, 10⟩).lat),
       ("xx", Val.num (baseRow Tid ⟨"B", 10, 10⟩).xx),
       ("yy", Val.num (baseRow Tid ⟨"B", 10, 10⟩).yy),
       ("UTM_zone", Val.str (baseRow Tid ⟨"B", 10, 10⟩).utmZone),
       ("region", Val.nan), ("provincia", Val.nan), ("comuna", Val.nan),
       ("localidad", Val.str "Sin localidad"),
       ("responsable", Val.str (baseRow Tid ⟨"B", 10, 10⟩).responsable)] :=
  C2_sentinel_only_localidad ly1 (baseRow Tid ⟨"B", 10, 10⟩)
    (by decide) (by decide) (by decide) (by decide)

/-- C2 counterexample: for a point outside every polygon the region,
provincia and comuna fields hold NaN — not a sentinel string — and only
localidad holds "Sin localidad". -/
theorem C2_cex :
    (process_kmz_bytes Tid ly1 entFar).map
        (fun rs => rs.map (fun r =>
          (fieldVal r "region", fieldVal r "provincia",
           fieldVal r "comuna", fieldVal r "localidad"))) =
      Except.ok [(some Val.nan, some Val.nan, some Val.nan,
        some (Val.str "Sin localidad"))] ∧
    Val.nan ≠ Val.str "Sin localidad" := by decide

/-- Helper: a spatial join only pairs rows of its left input. -/
theorem sjoinWithin_mem {α : Type} {getPt : α → ℚ × ℚ} {layer : Layer}
    {rows : List α} {x : α × Option String}
    (hx : x ∈ sjoinWithin getPt layer rows) : x.1 ∈ rows := by
  unfold sjoinWithin at hx
  rcases List.mem_flatMap.mp hx with ⟨r, hr, hxr⟩
  cases hm : matchesOf layer (getPt r) with
  | nil =>
    rw [hm] at hxr
    rw [List.mem_singleton] at hxr
    rw [hxr]
    exact hr
  | cons g gs =>
    rw [hm] at hxr
    rcases List.mem_map.mp hxr with ⟨g2, hg2, hxg⟩
    rw [← hxg]
    exact hr

/-- Helper: every row produced by `add_admin_columns` carries a base row of
its input. -/
theorem add_admin_columns_mem {ly : Layers} {rows : List BaseRow} {a : AdminRow}
    (ha : a ∈ add_admin_columns ly rows) : a.base ∈ rows := by
  unfold add_admin_columns at ha
  rcases List.mem_map.mp ha with ⟨r4, hr4, hae⟩
  have h3 := sjoinWithin_mem hr4
  have h2 := sjoinWithin_mem h3
  have h1 := sjoinWithin_mem h2
  have h0 := sjoinWithin_mem h1
  rw [← hae]
  exact h0

/-- Helper: every record of a document is `toRecord` of an admin row whose
base row belongs to the base dataframe of the document. -/
theorem mem_processDoc {T : ℤ → ℚ → ℚ → ℚ × ℚ} {ly : Layers}
    {doc : List Placemark} {r : Record} (hr : r ∈ processDoc T ly doc) :
    ∃ a : AdminRow, r = toRecord a ∧ a.base ∈ doc.map (baseRow T) := by
  unfold processDoc at hr
  rcases List.mem_map.mp hr with ⟨a, ha, hra⟩
  exact ⟨a, hra.symm, add_admin_columns_mem ha⟩

/-- Helper: every record of a successful run comes from some parsed
document of the archive. -/
theorem process_ok_mem {T : ℤ → ℚ → ℚ → ℚ × ℚ} {ly : Layers}
    {entries : List KmlEntry} {recs : List Record} {r : Record}
    (h : process_kmz_bytes T ly entries = Except.ok recs) (hr : r ∈ recs) :
    ∃ doc : List Placemark, r ∈ processDoc T ly doc := by
  unfold process_kmz_bytes at h
  by_cases hk : (kml_files entries).isEmpty = true
  · rw [if_pos hk] at h
    cases h
  · rw [if_neg hk] at h
    cases hp : parseDocs (kml_files entries) with
    | error err => rw [hp] at h; cases h
    | ok docs =>
      rw [hp] at h
      have hrecs : recs = (docs.map (processDoc T ly)).flatten := by
        cases h
        rfl
      rw [hrecs] at hr
      rcases List.mem_flatten.mp hr with ⟨l, hl, hrl⟩
      rcases List.mem_map.mp hl with ⟨doc, hdoc, hld⟩
      exact ⟨doc, by rw [hld]; exact hrl⟩

/-- C3 (amended): every record of a successful run exposes exactly the
fields Name, lon, lat, xx, yy, UTM_zone, region, provincia, comuna,
localidad and — last — `responsable` (not `responsible`), in that order,
with the `responsable` field the empty string. -/
theorem C3_record_fields (T : ℤ → ℚ → ℚ → ℚ × ℚ) (ly : Layers)
    (entries : List KmlEntry) (recs : List Record) (r : Record)
    (h : process_kmz_bytes T ly entries = Except.ok recs) (hr : r ∈ recs) :
    r.map Prod.fst =
      ["Name", "lon", "lat", "xx", "yy", "UTM_zone",
       "region", "provincia", "comuna", "localidad", "responsable"] ∧
    fieldVal r "responsable" = some (Val.str "") := by
  rcases process_ok_mem h hr with ⟨doc, hdoc⟩
  rcases mem_processDoc hdoc with ⟨a, rfl, hbase⟩
  rcases List.mem_map.mp hbase with ⟨p, hp, hba⟩
  have hresp : a.base.responsable = "" := by
    rw [← hba]
    rfl
  constructor
  · rfl
  · rw [show fieldVal (toRecord a) "responsable" =
      some (Val.str a.base.responsable) from rfl, hresp]

/-- Witness for C3 at the concrete `ent1` archive. -/
theorem C3_record_fields_witness :
    rec1.map Prod.fst =
      ["Name", "lon", "lat", "xx", "yy", "UTM_zone",
       "region", "provincia", "comuna", "localidad", "responsable"] ∧
    fieldVal rec1 "responsable" = some (Val.str "") :=
  C3_record_fields Tid ly1 ent1 [rec1] rec1 (by decide) (by decide)

/-- C3 counterexample: on a concrete archive every produced field-name list
ends in "responsable"; no field is named "responsible". -/
theorem C3_cex :
    (process_kmz_bytes Tid ly1 ent1).map
        (fun rs => rs.map (fun r => r.map Prod.fst)) =
      Except.ok [["Name", "lon", "lat", "xx", "yy", "UTM_zone",
        "region", "provincia", "comuna", "localidad", "responsable"]] ∧
    ("responsable" : String) ≠ "responsible" := by decide

/-- Helper: when no row multi-matches, a left spatial join reduces to a
per-row map pairing each row with its unique (hence first) match. -/
theorem sjoinWithin_of_unique {α : Type} (getPt : α → ℚ × ℚ) (layer : Layer)
    (rows : List α) (h : ∀ r ∈ rows, (matchesOf layer (getPt r)).length ≤ 1) :
    sjoinWithin getPt layer rows =
      rows.map (fun r => (r, first_match layer (getPt r))) := by
  induction rows with
  | nil => rfl
  | cons r rs ih =>
    have hr := h r (List.mem_cons_self r rs)
    have ht := ih (fun x hx => h x (List.mem_cons_of_mem _ hx))
    have hstep : sjoinWithin getPt layer (r :: rs) =
        (match matchesOf layer (getPt r) with
         | [] => [(r, none)]
         | ms => ms.map (fun g => (r, some g.2))) ++ sjoinWithin getPt layer rs := by
      unfold sjoinWithin
      rw [List.flatMap_cons]
    rw [hstep, ht, List.map_cons, ← List.singleton_append]
    cases hm : matchesOf layer (getPt r) with
    | nil => simp [first_match, hm]
    | cons g gs =>
      cases gs with
      | nil => simp [first_match, hm]
      | cons g2 gs2 =>
        rw [hm] at hr
        simp [List.length_cons] at hr

/-- Helper: when no point of the input multi-matches any layer, the four
joins of `add_admin_columns` produce exactly one enriched row per input
row, in order. -/
theorem add_admin_columns_of_unique (ly : Layers) (rows : List BaseRow)
    (h : ∀ r ∈ rows, uniquePoint ly (r.lon, r.lat)) :
    add_admin_columns ly rows = rows.map (enrichUnique ly) := by
  have e1 : sjoinWithin (fun (r : BaseRow) => (r.lon, r.lat)) ly.region rows =
      rows.map (fun r => (r, first_match ly.region (r.lon, r.lat))) :=
    sjoinWithin_of_unique _ _ _ (fun r hr => (h r hr).1)
  have e2 : sjoinWithin
      (fun (rc : BaseRow × Option String) => (rc.1.lon, rc.1.lat)) ly.provincia
      (rows.map (fun r => (r, first_match ly.region (r.lon, r.lat)))) =
      (rows.map (fun r => (r, first_match ly.region (r.lon, r.lat)))).map
        (fun rc => (rc, first_match ly.provincia (rc.1.lon, rc.1.lat))) :=
    sjoinWithin_of_unique _ _ _
      (by
        intro x hx
        rcases List.mem_map.mp hx with ⟨r, hr, rfl⟩
        exact (h r hr).2.1)
  have e3 : sjoinWithin
      (fun (rc : (BaseRow × Option String) × Option String) =>
        (rc.1.1.lon, rc.1.1.lat)) ly.comuna
      ((rows.map (fun r => (r, first_match ly.region (r.lon, r.lat)))).map
        (fun rc => (rc, first_match ly.provincia (rc.1.lon, rc.1.lat)))) =
      ((rows.map (fun r => (r, first_match ly.region (r.lon, r.lat)))).map
        (fun rc => (rc, first_match ly.provincia (rc.1.lon, rc.1.lat)))).map
        (fun rc => (rc, first_match ly.comuna (rc.1.1.lon, rc.1.1.lat))) :=
    sjoinWithin_of_unique _ _ _
      (by
        intro x hx
        rcases List.mem_map.mp hx with ⟨y, hy, rfl⟩
        rcases List.mem_map.mp hy with ⟨r, hr, rfl⟩
        exact (h r hr).2.2.1)
  have e4 : sjoinWithin
      (fun (rc : ((BaseRow × Option String) × Option String) × Option String) =>
        (rc.1.1.1.lon, rc.1.1.1.lat)) ly.localidad
      (((rows.map (fun r => (r, first_match ly.region (r.lon, r.lat)))).map
        (fun rc => (rc, first_match ly.provincia (rc.1.lon, rc.1.lat)))).map
        (fun rc => (rc, first_match ly.comuna (rc.1.1.lon, rc.1.1.lat)))) =
      (((rows.map (fun r => (r, first_match ly.region (r.lon, r.lat)))).map
        (fun rc => (rc, first_match ly.provincia (rc.1.lon, rc.1.lat)))).map
        (fun rc => (rc, first_match ly.comuna (rc.1.1.lon, rc.1.1.lat)))).map
        (fun rc => (rc, first_match ly.localidad (rc.1.1.1.lon, rc.1.1.1.lat))) :=
    sjoinWithin_of_unique _ _ _
      (by
        intro x hx
        rcases List.mem_map.mp hx with ⟨y, hy, rfl⟩
        rcases List.mem_map.mp hy with ⟨z, hz, rfl⟩
        rcases List.mem_map.mp hz with ⟨r, hr, rfl⟩
        exact (h r hr).2.2.2)
  unfold add_admin_columns
  rw [e1, e2, e3, e4]
  simp only [List.map_map]
  rfl

/-- Helper: a document none of whose points multi-matches yields exactly
one record per placemark, in order. -/
theorem processDoc_of_unique (T : ℤ → ℚ → ℚ → ℚ × ℚ) (ly : Layers)
    (doc : List Placemark) (h : ∀ p ∈ doc, uniquePoint ly (p.lon, p.lat)) :
    processDoc T ly doc = doc.map (mkRecordUnique T ly) := by
  unfold processDoc
  rw [add_admin_columns_of_unique ly (doc.map (baseRow T))
    (by
      intro r hr
      rcases List.mem_map.mp hr with ⟨p, hp, rfl⟩
      exact h p hp)]
  simp only [List.map_map]
  rfl

/-- Helper: concatenating the per-document records equals mapping over the
concatenated placemarks, under uniqueness. -/
theorem flatten_processDoc (T : ℤ → ℚ → ℚ → ℚ × ℚ) (ly : Layers)
    (docs : List (List Placemark))
    (h : ∀ p ∈ docs.flatten, uniquePoint ly (p.lon, p.lat)) :
    (docs.map (processDoc T ly)).flatten =
      docs.flatten.map (mkRecordUnique T ly) := by
  induction docs with
  | nil => rfl
  | cons d ds ih =>
    simp only [List.map_cons, List.flatten_cons, List.map_append]
    rw [processDoc_of_unique T ly d
      (fun p hp => h p (by rw [List.flatten_cons]; exact List.mem_append_left _ hp))]
    rw [ih
      (fun p hp => h p (by rw [List.flatten_cons]; exact List.mem_append_right _ hp))]

/-- C1 (amended): provided every extracted placemark lies in at most one
polygon of each layer, a successful run returns exactly one record per
placemark — record count equals placemark count, order preserved per
document, documents in discovery order.  Without that proviso the left
joins duplicate records (see the counterexample). -/
theorem C1_one_to_one (T : ℤ → ℚ → ℚ → ℚ × ℚ) (ly : Layers)
    (entries : List KmlEntry)
    (hne : (kml_files entries).isEmpty = false)
    (hok : ∀ e ∈ kml_files entries, (parsedOf e).isSome = true)
    (huniq : ∀ p ∈ all_points entries, uniquePoint ly (p.lon, p.lat)) :
    process_kmz_bytes T ly entries =
      Except.ok ((all_points entries).map (mkRecordUnique T ly)) ∧
    ((all_points entries).map (mkRecordUnique T ly)).length =
      (all_points entries).length := by
  constructor
  · unfold process_kmz_bytes
    rw [hne]
    simp only [Bool.false_eq_true, if_false]
    rw [parseDocs_ok _ hok]
    show Except.ok
        ((((kml_files entries).filterMap parsedOf).map (processDoc T ly)).flatten) = _
    rw [flatten_processDoc T ly ((kml_files entries).filterMap parsedOf) huniq]
    rfl
  · exact List.length_map _ _

/-- Witness for C1 at the concrete one-placemark archive `ent1` over the
unit-square layers `ly1`. -/
theorem C1_one_to_one_witness :
    process_kmz_bytes Tid ly1 ent1 =
      Except.ok ((all_points ent1).map (mkRecordUnique Tid ly1)) ∧
    ((all_points ent1).map (mkRecordUnique Tid ly1)).length =
      (all_points ent1).length :=
  C1_one_to_one Tid ly1 ent1 (by decide) (by decide) (by decide)

/-- C1 counterexample: an archive with a single placemark lying inside two
region polygons processes successfully into two records — more records
than placemarks, so the correspondence is not one-to-one. -/
theorem C1_cex :
    (process_kmz_bytes Tid lyDupR entSolo).map List.length = Except.ok 2 ∧
    (all_points entSolo).length = 1 := by decide

end KMZtoJSON
